import Mathlib

/-!
Shallow embedding of `handlers/infobip/infobip.go` (the Infobip SMS channel
handler of the courier repository): the status webhook (`StatusMessage`), the
inbound-message webhook (`ReceiveMessage`) and the outbound sender (`SendMsg`),
together with the wire-format structures they decode and encode.

External collaborators (the HTTP client, `time.Parse`, the backend) are
represented as explicit parameters or as recorded effects (the list of records
written to the backend), so each handler becomes a pure function from its
decoded input and its environment to its outcome plus its backend writes.
-/

set_option autoImplicit false

namespace Infobip

/-- `courier.MsgStatusValue` restricted to the values this handler uses. -/
inductive MsgStatusValue where
  | MsgSent
  | MsgDelivered
  | MsgFailed
  | MsgErrored
  | MsgWired
  deriving DecidableEq, Repr

/-- A message status written with `Backend().NewMsgStatusForID(channel, id, v)`:
the internal message identifier together with the mapped status value. -/
structure MsgStatus where
  msgID : Int
  value : MsgStatusValue
  deriving DecidableEq, Repr

/-- The errors the handler surfaces, by their source site. -/
inductive CourierError where
  /-- `handlers.DecodeAndValidateJSON` failed (malformed body or a missing
  required field, here the `results` array). -/
  | validationError
  /-- `fmt.Errorf("unknown status ...")` in `StatusMessage`. -/
  | unknownStatus (groupName : String)
  /-- `time.Parse` failed on a `receivedAt` value in `ReceiveMessage`. -/
  | timeParseError (value : String)
  /-- `fmt.Errorf("no username set for IB channel")` in `SendMsg`. -/
  | noUsername
  /-- `fmt.Errorf("no password set for IB channel")` in `SendMsg`. -/
  | noPassword
  /-- `Results[0]` on an empty slice would panic in Go; unreachable after the
  decode-time validation (see `decodeStatusEnvelope`). -/
  | indexOutOfRange
  deriving DecidableEq, Repr

/-! ## Status webhook (`StatusMessage`, lines 46-84) -/

/-- The anonymous `Status struct { GroupName string }` nested in `ibStatus`. -/
structure ibStatusStatus where
  groupName : String
  deriving DecidableEq, Repr

/-- `type ibStatus struct { MessageID int64; Status struct { GroupName string } }`. -/
structure ibStatus where
  messageID : Int
  status : ibStatusStatus
  deriving DecidableEq, Repr

/-- `type ibStatusEnvelope struct { Results []ibStatus }`. -/
structure ibStatusEnvelope where
  results : List ibStatus
  deriving DecidableEq, Repr

/-- `var infobipStatusMapping = map[string]courier.MsgStatusValue{...}` as a
lookup function: `none` models a key that is not in the map (`found == false`). -/
def infobipStatusMapping (g : String) : Option MsgStatusValue :=
  if g = "PENDING" then some .MsgSent
  else if g = "EXPIRED" then some .MsgSent
  else if g = "DELIVERED" then some .MsgDelivered
  else if g = "REJECTED" then some .MsgFailed
  else if g = "UNDELIVERABLE" then some .MsgFailed
  else none

/-- Modelled from the spec: `handlers.DecodeAndValidateJSON` is part of this
repository but its source (the `handlers` package) is not under `src/`; per the
spec a missing or empty `results` array is a validation error at decode time
(`Results []ibStatus` carries a `required` validation tag). `none` stands for
a body in which the array is absent, `some rs` for a body carrying array `rs`. -/
def decodeStatusEnvelope (body : Option (List ibStatus)) :
    Except CourierError ibStatusEnvelope :=
  match body with
  | none => .error .validationError
  | some [] => .error .validationError
  | some rs => .ok ⟨rs⟩

/-- Outcome of the status webhook: an error written with `courier.WriteError`
(no event), or the single status event acknowledged with
`courier.WriteStatusSuccess`. -/
inductive StatusOutcome where
  | error (e : CourierError)
  | event (s : MsgStatus)
  deriving DecidableEq, Repr

/-- `StatusMessage` after decoding: inspects `Results[0]`, maps its group name
through `infobipStatusMapping`, and on success writes one status to the
backend. Returns the outcome together with the statuses written by
`Backend().WriteMsgStatus` (the backend write itself is modelled as always
succeeding; its error path merely propagates). -/
def StatusMessage (env : ibStatusEnvelope) : StatusOutcome × List MsgStatus :=
  match env.results.head? with
  | none => (.error .indexOutOfRange, [])
  | some r =>
    match infobipStatusMapping r.status.groupName with
    | none => (.error (.unknownStatus r.status.groupName), [])
    | some v => (.event ⟨r.messageID, v⟩, [⟨r.messageID, v⟩])

/-- The full endpoint: decode-and-validate, then process. -/
def StatusMessageEndpoint (body : Option (List ibStatus)) :
    StatusOutcome × List MsgStatus :=
  match decodeStatusEnvelope body with
  | .error e => (.error e, [])
  | .ok env => StatusMessage env

/-! ## Inbound webhook (`ReceiveMessage`, lines 87-170) -/

/-- `type infobipMessage struct { MessageID, From, Text, ReceivedAt string }`
(`from` is a Lean keyword, hence `fromAddr`). -/
structure infobipMessage where
  messageID : String
  fromAddr : String
  text : String
  receivedAt : String
  deriving DecidableEq, Repr

/-- `type infobipEnvelope struct { PendingMessageCount, MessageCount int;
Results []infobipMessage }`. -/
structure infobipEnvelope where
  pendingMessageCount : Int
  messageCount : Int
  results : List infobipMessage
  deriving DecidableEq, Repr

/-- An incoming message as built and written by the loop body:
`Backend().NewIncomingMsg(channel, urn, text).WithReceivedOn(date).WithExternalID(messageID)`.
The URN is `urns.NewTelURNForCountry(from, channel.Country())`, an external
pure normalizer, represented here by its two inputs; the received time is an
abstract timestamp (`Nat`). -/
structure Msg where
  urnFrom : String
  urnCountry : String
  text : String
  receivedOn : Nat
  externalID : String
  deriving DecidableEq, Repr

/-- The message the loop body constructs for record `m`: text verbatim,
external id from `messageId`, received time `now` when `receivedAt` is absent,
else the parsed time (`getD now` is never exercised: callers only use this on
records whose timestamp parses). -/
def mkIncomingMsg (parseIbTime : String → Option Nat) (now : Nat)
    (country : String) (m : infobipMessage) : Msg :=
  ⟨m.fromAddr, country,  m.text,
    (if m.receivedAt = "" then some now else parseIbTime m.receivedAt).getD now,
    m.messageID⟩

/-- The `for _, infobipMessage := range ie.Results` loop: skip empty-text
records; parse a non-empty `receivedAt` with
`time.Parse("2006-01-02T15:04:05.999999999-0700", ...)` — modelled by the
external parameter `parseIbTime` — returning the parse error immediately on
failure; otherwise build the message and write it to the backend. Returns the
messages written to the backend, in order, plus the error that aborted the
loop, if any: a record written before a later record fails stays written. -/
def receiveLoop (parseIbTime : String → Option Nat) (now : Nat)
    (country : String) : List infobipMessage → List Msg × Option CourierError
  | [] => ([], none)
  | m :: rest =>
    if m.text = "" then receiveLoop parseIbTime now country rest
    else
      match (if m.receivedAt = "" then some now else parseIbTime m.receivedAt) with
      | none => ([], some (.timeParseError m.receivedAt))
      | some _ =>
        let msg := mkIncomingMsg parseIbTime now country m
        let r := receiveLoop parseIbTime now country rest
        (msg :: r.1, r.2)

/-- Outcome of the inbound webhook: `courier.WriteError` (no events),
`courier.WriteIgnored` ("ignoring request, no message"), or
`courier.WriteMsgSuccess` acknowledging the accepted messages (the first is
returned as the primary event). -/
inductive ReceiveOutcome where
  | error (e : CourierError)
  | ignored
  | success (msgs : List Msg)
  deriving DecidableEq, Repr

/-- `ReceiveMessage` after decoding: a zero `messageCount` is ignored before
the loop runs; otherwise the loop runs and a loop error is returned (writes
already made stand), an empty accepted list is ignored, and a non-empty one is
a success. Returns the outcome together with the messages written to the
backend by `Backend().WriteMsg`. -/
def ReceiveMessage (parseIbTime : String → Option Nat) (now : Nat)
    (country : String) (ie : infobipEnvelope) : ReceiveOutcome × List Msg :=
  if ie.messageCount = 0 then (.ignored, [])
  else
    let r := receiveLoop parseIbTime now country ie.results
    match r.2 with
    | some e => (.error e, r.1)
    | none => if r.1 = [] then (.ignored, []) else (.success r.1, r.1)

/-! ## Outbound sender (`SendMsg`, lines 172-285) -/

/-- The channel-derived configuration `SendMsg` reads:
`StringConfigForKey(ConfigUsername/ConfigPassword, "")` (so an absent key and
an empty value are both the empty string), `Address()`, `UUID()`, and the
result of `CallbackDomain(h.Server().Config().Domain)`. -/
structure Channel where
  username : String
  password : String
  address : String
  callbackDomain : String
  uuid : String
  deriving DecidableEq, Repr

/-- The outbound internal message `SendMsg` reads: `ID()` (an int64 whose
`String()` is its decimal form), `URN().Path()`, and the combined
`courier.GetTextAndAttachments(msg)` value. -/
structure OutMsg where
  id : Int
  urnPath : String
  textAndAttachments : String
  deriving DecidableEq, Repr

/-- `type ibDestination struct { To, MessageID string }` (`to` is a Lean token, hence `toAddr`). -/
structure ibDestination where
  toAddr : String
  messageID : String
  deriving DecidableEq, Repr

/-- `type ibOutgoingMessage struct { From string; Destinations []ibDestination;
Text, NotifyContentType string; IntermediateReport bool; NotifyURL string }`. -/
structure ibOutgoingMessage where
  fromAddr : String
  destinations : List ibDestination
  text : String
  notifyContentType : String
  intermediateReport : Bool
  notifyURL : String
  deriving DecidableEq, Repr

/-- `type ibOutgoingEnvelope struct { Messages []ibOutgoingMessage }`. -/
structure ibOutgoingEnvelope where
  messages : List ibOutgoingMessage
  deriving DecidableEq, Repr

/-- `strings.TrimLeft(s, "+")`: drop every leading `'+'`. -/
def trimLeftPlus (s : String) : String :=
  ⟨s.data.dropWhile (· = '+')⟩

/-- `fmt.Sprintf("https://%s%s%s/delivered", callbackDomain, "/c/ib/", uuid)`. -/
def statusURL (callbackDomain uuid : String) : String :=
  "https://" ++ callbackDomain ++ "/c/ib/" ++ uuid ++ "/delivered"

/-- The `ibMsg := ibOutgoingEnvelope{...}` literal of `SendMsg` lines 188-204. -/
def buildIbMsg (ch : Channel) (msg : OutMsg) : ibOutgoingEnvelope :=
  { messages := [
      { fromAddr := ch.address,
        destinations := [
          { toAddr := trimLeftPlus msg.urnPath,
            messageID := toString msg.id } ],
        text := msg.textAndAttachments,
        notifyContentType := "application/json",
        intermediateReport := true,
        notifyURL := statusURL ch.callbackDomain ch.uuid } ] }

/-- An error attached to the channel log with `log.WithError`. -/
inductive SendLogError where
  /-- `log.WithError("Message Send Error", err)` for the transport error of
  `utils.MakeHTTPRequest`. -/
  | sendError
  /-- `log.WithError("Message Send Error", errors.Errorf("received error
  status: ...", groupID))`; `jsonparser.GetInt` returns 0 alongside its error,
  so a parse failure logs group id 0. -/
  | errorStatus (groupID : Int)
  deriving DecidableEq, Repr

/-- What `SendMsg` returns to the dispatcher: `(nil, err)` for a missing
credential, or `(status, nil)` — a status object with the errors attached to
its log — in every other case. -/
inductive SendReturn where
  | configError (e : CourierError)
  | status (s : MsgStatus) (logErrors : List SendLogError)
  deriving DecidableEq, Repr

/-- The observable behaviour of one `SendMsg` call: its return value, whether
the HTTP request to `sendURL` was issued, and the envelope it encoded (none
when it failed before building one). -/
structure SendTrace where
  ret : SendReturn
  httpAttempted : Bool
  envelope : Option ibOutgoingEnvelope
  deriving DecidableEq, Repr

/-- `SendMsg`, parameterised by its external collaborators: `http` is the
result of `utils.MakeHTTPRequest` (`.error` a transport failure, `.ok` the
response body `rr.Body`), and `getGroupId` is
`jsonparser.GetInt(body, "messages", "[0]", "status", "groupId")` (`none` when
that parse fails). Credentials are checked first; then the envelope is built
and the request issued; the status is pre-set to `MsgErrored` with the attempt
log attached and upgraded to `MsgWired` only when the body parses to group id
1 or 3. -/
def SendMsg (http : Except String String) (getGroupId : String → Option Int)
    (ch : Channel) (msg : OutMsg) : SendTrace :=
  if ch.username = "" then ⟨.configError .noUsername, false, none⟩
  else if ch.password = "" then ⟨.configError .noPassword, false, none⟩
  else
    let ibMsg := buildIbMsg ch msg
    match http with
    | .error _ => ⟨.status ⟨msg.id, .MsgErrored⟩ [.sendError], true, some ibMsg⟩
    | .ok body =>
      match getGroupId body with
      | none => ⟨.status ⟨msg.id, .MsgErrored⟩ [.errorStatus 0], true, some ibMsg⟩
      | some g =>
        if g ≠ 1 ∧ g ≠ 3 then
          ⟨.status ⟨msg.id, .MsgErrored⟩ [.errorStatus g], true, some ibMsg⟩
        else ⟨.status ⟨msg.id, .MsgWired⟩ [], true, some ibMsg⟩

/-! ## Helper lemmas -/

/-- A prefix of records whose non-empty timestamps all parse is written in
full, and the loop then continues on the remainder of the batch. -/
theorem receiveLoop_append (p : String → Option Nat) (now : Nat)
    (country : String) (pre l : List infobipMessage)
    (hpre : ∀ r ∈ pre, r.text ≠ "" → r.receivedAt ≠ "" → (p r.receivedAt).isSome) :
    receiveLoop p now country (pre ++ l) =
      ((pre.filter (fun r => r.text ≠ "")).map (mkIncomingMsg p now country) ++
          (receiveLoop p now country l).1,
        (receiveLoop p now country l).2) := by
  induction pre with
  | nil => simp [receiveLoop]
  | cons m rest ih =>
    have ihr := ih (fun r hr h1 h2 => hpre r (List.mem_cons_of_mem m hr) h1 h2)
    by_cases hm : m.text = ""
    · simp [receiveLoop, hm, ihr, List.filter_cons]
    · by_cases hra : m.receivedAt = ""
      · simp [receiveLoop, hm, hra, ihr, List.filter_cons]
      · obtain ⟨t, ht⟩ := Option.isSome_iff_exists.mp
          (hpre m (List.mem_cons_self m rest) hm hra)
        simp [receiveLoop, hm, hra, ht, ihr, List.filter_cons]

/-- A batch whose non-empty timestamps all parse runs the loop to completion
and writes exactly the non-empty-text records. -/
theorem receiveLoop_all_valid (p : String → Option Nat) (now : Nat)
    (country : String) (l : List infobipMessage)
    (h : ∀ r ∈ l, r.text ≠ "" → r.receivedAt ≠ "" → (p r.receivedAt).isSome) :
    receiveLoop p now country l =
      ((l.filter (fun r => r.text ≠ "")).map (mkIncomingMsg p now country), none) := by
  have := receiveLoop_append p now country l [] h
  simpa [receiveLoop] using this

/-! ## Claim theorems -/

/-- C1: for every decoded status batch, the first record's group name is mapped
by the fixed table PENDING→Sent, EXPIRED→Sent, DELIVERED→Delivered,
REJECTED→Failed, UNDELIVERABLE→Failed, and any group name outside this
five-element set fails with the unknown-status validation error, with no
status constructed or persisted. -/
theorem statusMessage_group_name_mapping (r : ibStatus) (rest : List ibStatus) :
    (r.status.groupName = "PENDING" →
      StatusMessage ⟨r :: rest⟩ =
        (.event ⟨r.messageID, .MsgSent⟩, [⟨r.messageID, .MsgSent⟩])) ∧
    (r.status.groupName = "EXPIRED" →
      StatusMessage ⟨r :: rest⟩ =
        (.event ⟨r.messageID, .MsgSent⟩, [⟨r.messageID, .MsgSent⟩])) ∧
    (r.status.groupName = "DELIVERED" →
      StatusMessage ⟨r :: rest⟩ =
        (.event ⟨r.messageID, .MsgDelivered⟩, [⟨r.messageID, .MsgDelivered⟩])) ∧
    (r.status.groupName = "REJECTED" →
      StatusMessage ⟨r :: rest⟩ =
        (.event ⟨r.messageID, .MsgFailed⟩, [⟨r.messageID, .MsgFailed⟩])) ∧
    (r.status.groupName = "UNDELIVERABLE" →
      StatusMessage ⟨r :: rest⟩ =
        (.event ⟨r.messageID, .MsgFailed⟩, [⟨r.messageID, .MsgFailed⟩])) ∧
    (r.status.groupName ∉
        (["PENDING", "EXPIRED", "DELIVERED", "REJECTED", "UNDELIVERABLE"] :
          List String) →
      StatusMessage ⟨r :: rest⟩ =
        (.error (.unknownStatus r.status.groupName), [])) := by
  refine ⟨fun h => ?_, fun h => ?_, fun h => ?_, fun h => ?_, fun h => ?_,
    fun h => ?_⟩
  · simp [StatusMessage, infobipStatusMapping, h]
  · simp [StatusMessage, infobipStatusMapping, h]
  · simp [StatusMessage, infobipStatusMapping, h]
  · simp [StatusMessage, infobipStatusMapping, h]
  · simp [StatusMessage, infobipStatusMapping, h]
  · simp only [List.mem_cons, List.not_mem_nil, or_false, not_or] at h
    obtain ⟨h1, h2, h3, h4, h5⟩ := h
    simp [StatusMessage, infobipStatusMapping, h1, h2, h3, h4, h5]

/-- Witness for C1 at two concrete batches: a known group name maps by the
table, an unknown one is rejected without a write. -/
theorem statusMessage_group_name_mapping_witness :
    StatusMessage ⟨[⟨7, ⟨"PENDING"⟩⟩]⟩ = (.event ⟨7, .MsgSent⟩, [⟨7, .MsgSent⟩]) ∧
    StatusMessage ⟨[⟨7, ⟨"SOMETHING"⟩⟩]⟩ =
      (.error (.unknownStatus "SOMETHING"), []) :=
  ⟨(statusMessage_group_name_mapping ⟨7, ⟨"PENDING"⟩⟩ []).1 rfl,
    (statusMessage_group_name_mapping ⟨7, ⟨"SOMETHING"⟩⟩ []).2.2.2.2.2
      (by decide)⟩

/-- C7: a missing or empty `results` array fails at decode time with a
validation error, and every envelope that decodes successfully has a
non-empty `results` array, so `Results[0]` in the status processor is only
reached when a first record exists. -/
theorem statusEndpoint_decode_requires_record :
    StatusMessageEndpoint none = (.error .validationError, []) ∧
    StatusMessageEndpoint (some []) = (.error .validationError, []) ∧
    ∀ body env, decodeStatusEnvelope body = .ok env → env.results ≠ [] := by
  refine ⟨rfl, rfl, fun body env h => ?_⟩
  match body with
  | none => exact absurd h (by simp [decodeStatusEnvelope])
  | some [] => exact absurd h (by simp [decodeStatusEnvelope])
  | some (r :: rs) =>
    have : env = ⟨r :: rs⟩ := by
      simpa [decodeStatusEnvelope] using h.symm
    simp [this]

/-- Witness for C7: a one-record body decodes, and the decoded envelope indeed
has a non-empty array. -/
theorem statusEndpoint_decode_requires_record_witness :
    (⟨[⟨1, ⟨"PENDING"⟩⟩]⟩ : ibStatusEnvelope).results ≠ [] :=
  statusEndpoint_decode_requires_record.2.2 (some [⟨1, ⟨"PENDING"⟩⟩])
    ⟨[⟨1, ⟨"PENDING"⟩⟩]⟩ rfl

/-- C9: the status processor consults only the first record of a decoded
batch: two batches agreeing on their first record produce identical outcomes
and writes, and in particular any batch behaves like its truncation to the
first record (`rest2 = []`). -/
theorem statusMessage_first_record_only (r : ibStatus)
    (rest1 rest2 : List ibStatus) :
    StatusMessage ⟨r :: rest1⟩ = StatusMessage ⟨r :: rest2⟩ := rfl

/-- C5: a decoded inbound batch with a zero declared count, and likewise any
decoded batch in which every record has empty text, yields the distinct
ignored outcome (not an error, not a success) with nothing written to the
backend. -/
theorem receiveMessage_empty_batch_ignored (p : String → Option Nat)
    (now : Nat) (country : String) (ie : infobipEnvelope)
    (h : ie.messageCount = 0 ∨ ∀ r ∈ ie.results, r.text = "") :
    ReceiveMessage p now country ie = (.ignored, []) := by
  rcases h with h | h
  · simp [ReceiveMessage, h]
  · by_cases hc : ie.messageCount = 0
    · simp [ReceiveMessage, hc]
    · have hloop : receiveLoop p now country ie.results = ([], none) := by
        have hall : ∀ r ∈ ie.results,
            r.text ≠ "" → r.receivedAt ≠ "" → (p r.receivedAt).isSome :=
          fun r hr h1 _ => absurd (h r hr) h1
        rw [receiveLoop_all_valid p now country ie.results hall]
        have : ie.results.filter (fun r => r.text ≠ "") = [] := by
          rw [List.filter_eq_nil_iff]
          intro r hr
          simp [h r hr]
        rw [this]
        rfl
      simp only [ReceiveMessage, if_neg hc, hloop]
      simp

/-- Witness for C5: a two-record batch with declared count 3 and only empty
texts is ignored and persists nothing. -/
theorem receiveMessage_empty_batch_ignored_witness :
    ReceiveMessage (fun _ => none) 0 "US"
        ⟨0, 3, [⟨"1", "385916242493", "", ""⟩, ⟨"2", "385916242494", "", "T"⟩]⟩ =
      (.ignored, []) :=
  receiveMessage_empty_batch_ignored (fun _ => none) 0 "US"
    ⟨0, 3, [⟨"1", "385916242493", "", ""⟩, ⟨"2", "385916242494", "", "T"⟩]⟩
    (Or.inr (by decide))

/-- A record that precedes the malformed one in the C6 counterexample batch:
non-empty text, absent timestamp. -/
def cGoodRec : infobipMessage := ⟨"101", "385916242493", "hello", ""⟩

/-- The offending record of the C6 counterexample batch: non-empty text and a
`receivedAt` value its parser rejects. -/
def cBadRec : infobipMessage := ⟨"102", "385916242494", "world", "BAD"⟩

/-- The C6 counterexample batch: a valid record followed by one whose
timestamp fails to parse. -/
def cEnv : infobipEnvelope := ⟨0, 2, [cGoodRec, cBadRec]⟩

/-- The time parser used by the C6 counterexample: it rejects every string,
so `"BAD"` is malformed. -/
def cParse : String → Option Nat := fun _ => none

/-- C6 counterexample: the batch `cEnv` contains a non-empty-text record with
a malformed `receivedAt`, and the call does fail with the parse error — but
the record processed before it has already been written to the backend, so
the persisted list is not empty: persistence before the error is partial, not
absent. -/
theorem receiveMessage_partial_persistence_counterexample :
    (cBadRec ∈ cEnv.results ∧ cBadRec.text ≠ "" ∧ cBadRec.receivedAt ≠ "" ∧
      cParse cBadRec.receivedAt = none) ∧
    (ReceiveMessage cParse 0 "US" cEnv).1 =
      .error (.timeParseError "BAD") ∧
    (ReceiveMessage cParse 0 "US" cEnv).2 =
      [⟨"385916242493", "US", "hello", 0, "101"⟩] := by
  decide

/-- C6 amended: when a decoded batch with nonzero declared count consists of a
prefix of records whose non-empty timestamps all parse, followed by a record
with non-empty text and a malformed timestamp, the call fails with the parse
error for that record, and exactly the non-empty-text records of the prefix
have been persisted (each with the current time when its timestamp is
absent): persistence up to the offending record stands, the offending record
and everything after it is not persisted. -/
theorem receiveMessage_malformed_timestamp (p : String → Option Nat)
    (now : Nat) (country : String) (ie : infobipEnvelope)
    (pre : List infobipMessage) (bad : infobipMessage)
    (rest : List infobipMessage)
    (hres : ie.results = pre ++ bad :: rest) (hc : ie.messageCount ≠ 0)
    (hpre : ∀ r ∈ pre, r.text ≠ "" → r.receivedAt ≠ "" → (p r.receivedAt).isSome)
    (ht : bad.text ≠ "") (hra : bad.receivedAt ≠ "")
    (hbad : p bad.receivedAt = none) :
    ReceiveMessage p now country ie =
      (.error (.timeParseError bad.receivedAt),
        (pre.filter (fun r => r.text ≠ "")).map (mkIncomingMsg p now country)) := by
  have hb : receiveLoop p now country (bad :: rest) =
      ([], some (.timeParseError bad.receivedAt)) := by
    simp [receiveLoop, ht, hra, hbad]
  have hloop := receiveLoop_append p now country pre (bad :: rest) hpre
  rw [hb] at hloop
  simp [ReceiveMessage, hc, hres, hloop]

/-- Witness for the amended C6: one valid record then one malformed record;
the call errors and exactly the first record is persisted, timestamped with
the parsed value of its `receivedAt`. -/
theorem receiveMessage_malformed_timestamp_witness :
    ReceiveMessage (fun s => if s = "GOOD" then some 7 else none) 5 "HR"
        ⟨0, 2, [⟨"1", "385916242493", "hi", "GOOD"⟩,
          ⟨"2", "385916242494", "yo", "BAD"⟩]⟩ =
      (.error (.timeParseError "BAD"), [⟨"385916242493", "HR", "hi", 7, "1"⟩]) := by
  have := receiveMessage_malformed_timestamp
    (fun s => if s = "GOOD" then some 7 else none) 5 "HR"
    ⟨0, 2, [⟨"1", "385916242493", "hi", "GOOD"⟩,
      ⟨"2", "385916242494", "yo", "BAD"⟩]⟩
    [⟨"1", "385916242493", "hi", "GOOD"⟩] ⟨"2", "385916242494", "yo", "BAD"⟩ []
    rfl (by decide) (by decide) (by decide) (by decide) (by decide)
  rw [this]
  decide

/-- C10: for a decoded batch with nonzero declared count, the count takes no
further part: replacing it by any other nonzero value leaves the outcome and
writes unchanged, and (when every non-empty timestamp parses) the persisted
messages are exactly those built from the non-empty-text records, however
many the count declared. -/
theorem receiveMessage_count_only_zero_tested (p : String → Option Nat)
    (now : Nat) (country : String) (ie : infobipEnvelope) (c : Int)
    (hc : ie.messageCount ≠ 0) (hc2 : c ≠ 0)
    (hvalid : ∀ r ∈ ie.results,
      r.text ≠ "" → r.receivedAt ≠ "" → (p r.receivedAt).isSome) :
    ReceiveMessage p now country { ie with messageCount := c } =
      ReceiveMessage p now country ie ∧
    (ReceiveMessage p now country ie).2 =
      (ie.results.filter (fun r => r.text ≠ "")).map (mkIncomingMsg p now country) := by
  have hloop := receiveLoop_all_valid p now country ie.results hvalid
  constructor
  · simp [ReceiveMessage, hc, hc2]
  · rw [ReceiveMessage, if_neg hc, hloop]
    dsimp only
    split
    · rename_i hemp
      exact hemp.symm
    · rfl

/-- Witness for C10: a declared count of 5 over three records, two of them
with non-empty text; changing the count to 1 changes nothing, and exactly the
two non-empty-text records are persisted. -/
theorem receiveMessage_count_only_zero_tested_witness :
    ReceiveMessage (fun _ => some 9) 0 "US"
        ⟨0, 1, [⟨"1", "a", "x", ""⟩, ⟨"2", "b", "", ""⟩, ⟨"3", "c", "y", "T"⟩]⟩ =
      ReceiveMessage (fun _ => some 9) 0 "US"
        ⟨0, 5, [⟨"1", "a", "x", ""⟩, ⟨"2", "b", "", ""⟩, ⟨"3", "c", "y", "T"⟩]⟩ ∧
    (ReceiveMessage (fun _ => some 9) 0 "US"
        ⟨0, 5, [⟨"1", "a", "x", ""⟩, ⟨"2", "b", "", ""⟩, ⟨"3", "c", "y", "T"⟩]⟩).2 =
      [⟨"a", "US", "x", 0, "1"⟩, ⟨"c", "US", "y", 9, "3"⟩] := by
  have := receiveMessage_count_only_zero_tested (fun _ => some 9) 0 "US"
    ⟨0, 5, [⟨"1", "a", "x", ""⟩, ⟨"2", "b", "", ""⟩, ⟨"3", "c", "y", "T"⟩]⟩ 1
    (by decide) (by decide) (by decide)
  refine ⟨this.1, ?_⟩
  rw [this.2]
  decide

/-- C3: a channel whose username or password configuration is empty (or
absent, which reads as the empty default) makes `SendMsg` return a
configuration error, and the HTTP request to the gateway is never issued. -/
theorem sendMsg_missing_credentials (http : Except String String)
    (getGroupId : String → Option Int) (ch : Channel) (msg : OutMsg)
    (h : ch.username = "" ∨ ch.password = "") :
    (∃ e, (SendMsg http getGroupId ch msg).ret = .configError e) ∧
    (SendMsg http getGroupId ch msg).httpAttempted = false := by
  rcases h with h | h
  · simp [SendMsg, h]
  · by_cases hu : ch.username = "" <;> simp [SendMsg, hu, h]

/-- Witness for C3 at a channel with a password but no username. -/
theorem sendMsg_missing_credentials_witness :
    (∃ e, (SendMsg (.ok "") (fun _ => none)
        ⟨"", "secret", "385", "example.com", "uuid-1"⟩ ⟨7, "+1", "hi"⟩).ret =
      .configError e) ∧
    (SendMsg (.ok "") (fun _ => none)
        ⟨"", "secret", "385", "example.com", "uuid-1"⟩
        ⟨7, "+1", "hi"⟩).httpAttempted = false :=
  sendMsg_missing_credentials (.ok "") (fun _ => none)
    ⟨"", "secret", "385", "example.com", "uuid-1"⟩ ⟨7, "+1", "hi"⟩ (Or.inl rfl)

/-- C4: with credentials present, a transport failure of the HTTP call makes
`SendMsg` return the Errored status with the send error attached to the
attempt's log, through the non-error return path (the Go error result is
nil): it is never a hard failure. -/
theorem sendMsg_transport_error (e : String) (getGroupId : String → Option Int)
    (ch : Channel) (msg : OutMsg) (hu : ch.username ≠ "")
    (hp : ch.password ≠ "") :
    SendMsg (.error e) getGroupId ch msg =
      ⟨.status ⟨msg.id, .MsgErrored⟩ [.sendError], true,
        some (buildIbMsg ch msg)⟩ := by
  simp [SendMsg, hu, hp]

/-- Witness for C4 at a concrete channel and message. -/
theorem sendMsg_transport_error_witness :
    SendMsg (.error "connection refused") (fun _ => none)
        ⟨"user", "secret", "385", "example.com", "uuid-1"⟩ ⟨7, "+1", "hi"⟩ =
      ⟨.status ⟨7, .MsgErrored⟩ [.sendError], true,
        some (buildIbMsg ⟨"user", "secret", "385", "example.com", "uuid-1"⟩
          ⟨7, "+1", "hi"⟩)⟩ :=
  sendMsg_transport_error "connection refused" (fun _ => none)
    ⟨"user", "secret", "385", "example.com", "uuid-1"⟩ ⟨7, "+1", "hi"⟩
    (by decide) (by decide)

/-- C2: when the HTTP call returns a response body, `SendMsg` returns the
Wired status exactly when the body parses to group id 1 or 3 at
`messages[0].status.groupId`; a parse failure logs group id 0 (the value
`jsonparser.GetInt` returns beside its error) with the Errored status, and
any other parsed value logs that value with the Errored status. -/
theorem sendMsg_groupid_decides_wired (getGroupId : String → Option Int)
    (ch : Channel) (msg : OutMsg) (body : String) (hu : ch.username ≠ "")
    (hp : ch.password ≠ "") :
    ((SendMsg (.ok body) getGroupId ch msg).ret =
        .status ⟨msg.id, .MsgWired⟩ [] ↔
      getGroupId body = some 1 ∨ getGroupId body = some 3) ∧
    (getGroupId body = none →
      (SendMsg (.ok body) getGroupId ch msg).ret =
        .status ⟨msg.id, .MsgErrored⟩ [.errorStatus 0]) ∧
    (∀ g, getGroupId body = some g → g ≠ 1 → g ≠ 3 →
      (SendMsg (.ok body) getGroupId ch msg).ret =
        .status ⟨msg.id, .MsgErrored⟩ [.errorStatus g]) := by
  refine ⟨?_, fun h => ?_, fun g h h1 h3 => ?_⟩
  · cases hb : getGroupId body with
    | none => simp [SendMsg, hu, hp, hb]
    | some g =>
      by_cases h1 : g = 1
      · simp [SendMsg, hu, hp, hb, h1]
      · by_cases h3 : g = 3
        · simp [SendMsg, hu, hp, hb, h1, h3]
        · simp [SendMsg, hu, hp, hb, h1, h3]
  · simp [SendMsg, hu, hp, h]
  · simp [SendMsg, hu, hp, h, h1, h3]

/-- Witness for C2: a body parsing to group id 3 yields the Wired status. -/
theorem sendMsg_groupid_decides_wired_witness :
    (SendMsg (.ok "resp") (fun _ => some 3)
        ⟨"user", "secret", "385", "example.com", "uuid-1"⟩
        ⟨7, "+1", "hi"⟩).ret = .status ⟨7, .MsgWired⟩ [] :=
  (sendMsg_groupid_decides_wired (fun _ => some 3)
      ⟨"user", "secret", "385", "example.com", "uuid-1"⟩ ⟨7, "+1", "hi"⟩ "resp"
      (by decide) (by decide)).1.mpr (Or.inr rfl)

/-- Stripping the single leading `'+'` of a phone number: `trimLeftPlus`
agrees with dropping it when what follows does not itself start with `'+'`. -/
theorem trimLeftPlus_plus_cons (s : String) (hs : s.data.head? ≠ some '+') :
    trimLeftPlus ("+" ++ s) = s := by
  obtain ⟨data⟩ := s
  show (⟨List.dropWhile (fun c => decide (c = '+')) (['+'] ++ data)⟩ : String) = ⟨data⟩
  cases data with
  | nil => rfl
  | cons c cs =>
    have hc : c ≠ '+' := by
      intro hceq
      exact hs (by simp [hceq])
    simp [List.dropWhile, hc]

/-- Whenever credentials are present, `SendMsg` encodes exactly the envelope
built by `buildIbMsg`, whatever the HTTP call then does. -/
theorem sendMsg_envelope_eq (http : Except String String)
    (getGroupId : String → Option Int) (ch : Channel) (msg : OutMsg)
    (hu : ch.username ≠ "") (hp : ch.password ≠ "") :
    (SendMsg http getGroupId ch msg).envelope = some (buildIbMsg ch msg) := by
  cases http with
  | error e => simp [SendMsg, hu, hp]
  | ok body =>
    cases hb : getGroupId body with
    | none => simp [SendMsg, hu, hp, hb]
    | some g =>
      by_cases hg : g ≠ 1 ∧ g ≠ 3 <;> simp [SendMsg, hu, hp, hb, hg]

/-- C8: with credentials present and a destination URN path `"+" ++ s` (one
leading plus), the encoded envelope carries `to = s` (the plus stripped),
`messageId` the decimal form of the internal identifier, the fixed
`notifyContentType = "application/json"` and `intermediateReport = true`, and
the callback URL `https://<domain>/c/ib/<uuid>/delivered`. -/
theorem sendMsg_envelope_encoding (http : Except String String)
    (getGroupId : String → Option Int) (ch : Channel) (msg : OutMsg)
    (s : String) (hu : ch.username ≠ "") (hp : ch.password ≠ "")
    (hpath : msg.urnPath = "+" ++ s) (hs : s.data.head? ≠ some '+') :
    (SendMsg http getGroupId ch msg).envelope = some
      { messages := [
          { fromAddr := ch.address,
            destinations := [
              { toAddr := s, messageID := toString msg.id } ],
            text := msg.textAndAttachments,
            notifyContentType := "application/json",
            intermediateReport := true,
            notifyURL :=
              "https://" ++ ch.callbackDomain ++ "/c/ib/" ++ ch.uuid ++
                "/delivered" }] } := by
  rw [sendMsg_envelope_eq http getGroupId ch msg hu hp]
  rw [buildIbMsg, hpath, trimLeftPlus_plus_cons s hs, statusURL]

/-- Witness for C8: the spec's round-trip example, destination
`"+15551234567"` encoding to `to = "15551234567"` with identifier 42. -/
theorem sendMsg_envelope_encoding_witness :
    (SendMsg (.ok "resp") (fun _ => some 1)
        ⟨"user", "secret", "385", "example.com", "uuid-1"⟩
        ⟨42, "+15551234567", "hello"⟩).envelope = some
      { messages := [
          { fromAddr := "385",
            destinations := [
              { toAddr := "15551234567", messageID := toString (42 : Int) } ],
            text := "hello",
            notifyContentType := "application/json",
            intermediateReport := true,
            notifyURL := "https://example.com/c/ib/uuid-1/delivered" }] } := by
  have := sendMsg_envelope_encoding (.ok "resp") (fun _ => some 1)
    ⟨"user", "secret", "385", "example.com", "uuid-1"⟩
    ⟨42, "+15551234567", "hello"⟩ "15551234567"
    (by decide) (by decide) (by decide) (by decide)
  rw [this]
  rfl

end Infobip
